import Mathlib

/-!
Verification of the ngx-pinch-zoom gesture/transform engine.

The development shallowly embeds the two TypeScript classes of the
repository:

* `IvyPinch` (file ivypinch, src/unnamed/part_000): the transform engine,
  modelled by `PinchState` together with the pure step functions
  `handlePinch`, `handleLimitZoom`, `handleWheel`, `setZoom`, `toggleZoom`,
  `resetScale`, `handleTouchcancel`, `centeringImage`, `limitPanX`,
  `limitPanY`.
* `Touches` (touches.ts): the gesture recognizer, modelled by
  `TouchesState` together with `handleTouchstartT`, `handleTouchendT`,
  `handleMousedownT`, `handleMousemoveT`, `detectDoubleTap`, `detectTap`,
  `getLinearSwipeType`.

JavaScript numbers are modelled by the rationals; the DOM geometry read by
the engine (image, element and parent sizes, bounding rectangles) is an
explicit `Geometry` record, and timestamps are explicit parameters.
Handler invocations performed through runHandler are modelled as emitted
`TEmit` values, whether or not a consumer registered for them.
-/

namespace PinchZoom

/-- Model of the platform primitive Math.sqrt on the rationals; it is exact
on rationals that are squares of rationals (the only inputs at which this
development evaluates it), sends 0 to 0 and positive inputs to positive
outputs, which are the properties of Math.sqrt the source relies on. -/
def mathSqrt (q : ℚ) : ℚ := (Nat.sqrt q.num.toNat : ℚ) / (Nat.sqrt q.den : ℚ)

/-- One contact point of a touch event: client and page coordinates, as read
by getClientPosition and getDistance. -/
structure TouchPt where
  clientX : ℚ
  clientY : ℚ
  pageX : ℚ
  pageY : ℚ
deriving DecidableEq, Repr

/-- A two-contact touchmove event, as consumed by handlePinch. -/
structure PinchEvt where
  t0 : TouchPt
  t1 : TouchPt
deriving DecidableEq, Repr

/-- IvyPinch.getDistance: Euclidean distance between the two contacts,
Math.sqrt(Math.pow(t0.pageX - t1.pageX, 2) + Math.pow(t0.pageY - t1.pageY, 2)). -/
def getDistance (e : PinchEvt) : ℚ :=
  mathSqrt ((e.t0.pageX - e.t1.pageX) ^ 2 + (e.t0.pageY - e.t1.pageY) ^ 2)

/-- The values the engine reads from the DOM geometry provider:
img.offsetWidth/offsetHeight, element.offsetWidth/offsetHeight,
parentElement.offsetWidth/offsetHeight, the parent bounding rectangle
origin, and whether getImageElement returns an element. -/
structure Geometry where
  imageWidth : ℚ
  imageHeight : ℚ
  elementWidth : ℚ
  elementHeight : ℚ
  parentWidth : ℚ
  parentHeight : ℚ
  rectLeft : ℚ
  rectTop : ℚ
  hasImage : Bool
deriving DecidableEq, Repr

/-- The configuration fields of Params used by the modelled operations.
The JS readings params.minScale || 0, params.zoomControlScale || 0 and
params.wheelZoomFactor || 0 are the identity on every number (0 is falsy
and maps to 0), so the fields hold the resolved numeric values. -/
structure PZParams where
  minScale : ℚ
  limitPan : Bool
  disablePan : Bool
  zoomControlScale : ℚ
  doubleTapScale : Option ℚ
  wheelZoomFactor : ℚ
  wheel : Bool
  doubleTap : Bool
  autoHeight : Bool
deriving DecidableEq, Repr

/-- IvyPinch.eventType values reachable in the engine. -/
inductive EvT where
  | undef
  | touchend
  | pan
  | pinch
  | hswipe
  | vswipe
deriving DecidableEq, Repr

/-- The mutable instance fields of IvyPinch that the modelled operations
read and write. elemLeft/elemTop are elementPosition.left/top. -/
structure PinchState where
  scale : ℚ
  initialScale : ℚ
  moveX : ℚ
  moveY : ℚ
  initialMoveX : ℚ
  initialMoveY : ℚ
  moveXC : ℚ
  moveYC : ℚ
  distance : ℚ
  initialDistance : ℚ
  maxScale : ℚ
  eventType : EvT
  elemLeft : ℚ
  elemTop : ℚ
deriving DecidableEq, Repr

/-- IvyPinch.updateInitialValues. -/
def updateInitialValues (st : PinchState) : PinchState :=
  { st with initialScale := st.scale, initialMoveX := st.moveX, initialMoveY := st.moveY }

/-- IvyPinch.resetScale (the transformElement call is a DOM write with no
effect on the modelled state). -/
def resetScale (st : PinchState) : PinchState :=
  updateInitialValues { st with scale := 1, moveX := 0, moveY := 0 }

/-- IvyPinch.limitPanY, as a function of the current scale and moveY. -/
def limitPanY (g : Geometry) (scale moveY : ℚ) : ℚ :=
  let imgHeight := g.imageHeight
  let scaledImgHeight := imgHeight * scale
  let parentHeight := g.parentHeight
  let elementHeight := g.elementHeight
  if scaledImgHeight < parentHeight then
    (parentHeight - elementHeight * scale) / 2
  else
    let imgOffsetTop := ((imgHeight - elementHeight) * scale) / 2
    if moveY > imgOffsetTop then imgOffsetTop
    else if scaledImgHeight + |imgOffsetTop| - parentHeight + moveY < 0 then
      -(scaledImgHeight + |imgOffsetTop| - parentHeight)
    else moveY

/-- IvyPinch.limitPanX, as a function of the current scale and moveX.
The last branch of the source writes imgWidth * this.scale in place of
scaledImgWidth; the value is the same and is kept as written. -/
def limitPanX (g : Geometry) (scale moveX : ℚ) : ℚ :=
  let imgWidth := g.imageWidth
  let scaledImgWidth := imgWidth * scale
  let parentWidth := g.parentWidth
  let elementWidth := g.elementWidth
  if scaledImgWidth < parentWidth then
    (parentWidth - elementWidth * scale) / 2
  else
    let imgOffsetLeft := ((imgWidth - elementWidth) * scale) / 2
    if moveX > imgOffsetLeft then imgOffsetLeft
    else if scaledImgWidth + |imgOffsetLeft| - parentWidth + moveX < 0 then
      -(imgWidth * scale + |imgOffsetLeft| - parentWidth)
    else moveX

/-- IvyPinch.centeringImage: returns the updated (moveX, moveY) pair; the
source method mutates this.moveX/this.moveY in place and reports whether
they changed, which the callers recover by comparing with the input. -/
def centeringImage (g : Geometry) (scale moveX moveY : ℚ) : ℚ × ℚ :=
  let moveY1 := if moveY > 0 then 0 else moveY
  let moveX1 := if moveX > 0 then 0 else moveX
  let moveY2 := if g.hasImage then limitPanY g scale moveY1 else moveY1
  let moveX2 := if g.hasImage then limitPanX g scale moveX1 else moveX1
  let moveX3 :=
    if g.hasImage ∧ scale < 1 then
      if moveX2 < g.elementWidth * (1 - scale) then g.elementWidth * (1 - scale) else moveX2
    else moveX2
  (moveX3, moveY2)

/-- IvyPinch.alignImage: apply centeringImage and, when it moved anything,
commit via updateInitialValues. -/
def alignImage (g : Geometry) (st : PinchState) : PinchState :=
  let c := centeringImage g st.scale st.moveX st.moveY
  let st1 := { st with moveX := c.1, moveY := c.2 }
  if c.1 ≠ st.moveX ∨ c.2 ≠ st.moveY then updateInitialValues st1 else st1

/-- IvyPinch.handleLimitZoom: when the live scale is above maxScale or at or
below minScale, remember the pan ratios at the pre-clamp scale, clamp the
scale, and rebuild moveX/moveY from those ratios at the new scale. -/
def handleLimitZoom (p : PZParams) (g : Geometry) (st : PinchState) : PinchState :=
  let limitZoom := st.maxScale
  let minScale := p.minScale
  if st.scale > limitZoom ∨ st.scale ≤ minScale then
    let imageWidth := g.imageWidth
    let imageHeight := g.imageHeight
    let enlargedImageWidth := imageWidth * st.scale
    let enlargedImageHeight := imageHeight * st.scale
    let xRat := st.moveX / (enlargedImageWidth - imageWidth)
    let yRat := st.moveY / (enlargedImageHeight - imageHeight)
    let scale1 := if st.scale > limitZoom then limitZoom else st.scale
    let scale2 := if scale1 ≤ minScale then minScale else scale1
    let newImageWidth := imageWidth * scale2
    let newImageHeight := imageHeight * scale2
    { st with scale := scale2,
              moveX := -|xRat * (newImageWidth - imageWidth)|,
              moveY := -|(-yRat) * (newImageHeight - imageHeight)| }
  else st

/-- IvyPinch.handlePinch: runs only when eventType is undefined or pinch;
on entry (eventType undefined) captures initialDistance and the focus point
moveXC/moveYC; every move recomputes scale and moveX/moveY from the
committed baseline, then applies handleLimitZoom and, when configured,
the pan limits. -/
def handlePinch (p : PZParams) (g : Geometry) (st : PinchState) (e : PinchEvt) : PinchState :=
  if st.eventType = EvT.undef ∨ st.eventType = EvT.pinch then
    let st1 :=
      if st.eventType = EvT.undef then
        let moveLeft0 := e.t0.clientX - st.elemLeft
        let moveLeft1 := e.t1.clientX - st.elemLeft
        let moveTop0 := e.t0.clientY - st.elemTop
        let moveTop1 := e.t1.clientY - st.elemTop
        { st with initialDistance := getDistance e,
                  moveXC := (moveLeft0 + moveLeft1) / 2 - st.initialMoveX,
                  moveYC := (moveTop0 + moveTop1) / 2 - st.initialMoveY }
      else st
    let d := getDistance e
    let st2 :=
      { st1 with eventType := EvT.pinch, distance := d,
                 scale := st1.initialScale * (d / st1.initialDistance),
                 moveX := st1.initialMoveX - ((d / st1.initialDistance) * st1.moveXC - st1.moveXC),
                 moveY := st1.initialMoveY - ((d / st1.initialDistance) * st1.moveYC - st1.moveYC) }
    let st3 := handleLimitZoom p g st2
    if p.limitPan then
      let st4 := { st3 with moveY := limitPanY g st3.scale st3.moveY }
      { st4 with moveX := limitPanX g st4.scale st4.moveX }
    else st3
  else st

/-- IvyPinch.setZoom: set the scale, recompute moveX/moveY so the given
center point stays fixed relative to the committed baseline, then apply
centeringImage and commit. -/
def setZoom (g : Geometry) (st : PinchState) (scale : ℚ) (center : Option (ℚ × ℚ)) :
    PinchState :=
  let st1 := { st with scale := scale }
  let visibleAreaWidth := g.elementWidth
  let visibleAreaHeight := g.elementHeight
  let scalingPercent := visibleAreaWidth * st1.scale / (visibleAreaWidth * st1.initialScale)
  let xCenter := match center with
    | some c => c.1
    | none => visibleAreaWidth / 2 - st1.initialMoveX
  let yCenter := match center with
    | some c => c.2
    | none => visibleAreaHeight / 2 - st1.initialMoveY
  let st2 := { st1 with moveX := st1.initialMoveX - (scalingPercent * xCenter - xCenter),
                        moveY := st1.initialMoveY - (scalingPercent * yCenter - yCenter) }
  let c := centeringImage g st2.scale st2.moveX st2.moveY
  updateInitialValues { st2 with moveX := c.1, moveY := c.2 }

/-- IvyPinch.toggleZoom: at committed scale 1 zoom in, around the changed
touch when a touch event is supplied (double tap) or around the element
center otherwise (zoom control); at any other committed scale reset. -/
def toggleZoom (p : PZParams) (g : Geometry) (st : PinchState) (event : Option TouchPt) :
    PinchState :=
  if st.initialScale = 1 then
    match event with
    | some ct =>
      match p.doubleTapScale with
      | none => st
      | some dts =>
        let st1 := { st with scale := st.initialScale * dts }
        let st2 := { st1 with
          moveX := st1.initialMoveX - (ct.clientX - st1.elemLeft) * (dts - 1),
          moveY := st1.initialMoveY - (ct.clientY - st1.elemTop) * (dts - 1) }
        let c := centeringImage g st2.scale st2.moveX st2.moveY
        updateInitialValues { st2 with moveX := c.1, moveY := c.2 }
    | none =>
      let zoomControlScale := p.zoomControlScale
      let st1 := { st with scale := st.initialScale * (zoomControlScale + 1) }
      let st2 := { st1 with
        moveX := st1.initialMoveX - g.elementWidth * (st1.scale - 1) / 2,
        moveY := st1.initialMoveY - g.elementHeight * (st1.scale - 1) / 2 }
      let c := centeringImage g st2.scale st2.moveX st2.moveY
      updateInitialValues { st2 with moveX := c.1, moveY := c.2 }
  else resetScale st

/-- The newScale computation of IvyPinch.handleWheel: step the committed
scale by the wheel factor in the direction of the wheel delta, then snap to
1 or to maxScale when within one step of those bounds. -/
def wheelNewScale (p : PZParams) (st : PinchState) (deltaY : ℚ) : ℚ :=
  let wheelZoomFactor := p.wheelZoomFactor
  let zoomFactor := if deltaY < 0 then wheelZoomFactor else -wheelZoomFactor
  let newScale := st.initialScale + zoomFactor
  if newScale < 1 + wheelZoomFactor then 1
  else if newScale < st.maxScale ∧ newScale > st.maxScale - wheelZoomFactor then st.maxScale
  else newScale

/-- IvyPinch.handleWheel: compute the snapped scale, return unchanged when
it is out of bounds or equal to the live scale, otherwise refresh the
element position and zoom around the cursor via setZoom. -/
def handleWheel (p : PZParams) (g : Geometry) (st : PinchState)
    (deltaY clientX clientY : ℚ) : PinchState :=
  let newScale := wheelNewScale p st deltaY
  if newScale < 1 ∨ newScale > st.maxScale then st
  else if newScale = st.scale then st
  else
    let st1 := { st with elemLeft := g.rectLeft, elemTop := g.rectTop, scale := newScale }
    let xCenter := clientX - st1.elemLeft - st1.initialMoveX
    let yCenter := clientY - st1.elemTop - st1.initialMoveY
    setZoom g st1 newScale (some (xCenter, yCenter))

/-- IvyPinch.handleTouchcancel: force the scale to 1, realign, commit, and
clear the current gesture. -/
def handleTouchcancel (g : Geometry) (st : PinchState) : PinchState :=
  let st1 := { st with scale := 1 }
  let st2 := alignImage g st1
  let st3 := updateInitialValues st2
  { st3 with eventType := EvT.undef }

/-!
Model of the Touches gesture recognizer (touches.ts). Timestamps in
milliseconds are explicit rational parameters (Date getTime values). The
doubleTapTimeout of the source is armed with a callback that only clears
the timeout itself, so the timer has no observable behavior beyond the
armed flag, which the model records. Calls to runHandler are modelled as
emitted TEmit values; the source invokes a consumer only when one is
registered, and this repository registers no tap or longtap consumer, but
the emission is the recognizer output the claims are about.
-/

/-- Touches.eventType values reachable in the modelled handlers. -/
inductive TEv where
  | undef
  | touchend
  | hswipe
  | vswipe
deriving DecidableEq, Repr

/-- The semantic events the recognizer hands to runHandler. -/
inductive TEmit where
  | tap
  | longtap
  | doubleTap
  | touchstartE
  | touchendE
  | mousedownE
  | panE
  | hswipeE
  | vswipeE
deriving DecidableEq, Repr

/-- The mutable instance fields of Touches used by the modelled handlers.
elemLeft/elemTop are this.elementPosition.left/top. -/
structure TouchesState where
  eventType : TEv
  startX : ℚ
  startY : ℚ
  lastTap : ℚ
  touchstartTime : ℚ
  detectSwipeCounter : ℕ
  isMousedown : Bool
  timeoutArmed : Bool
  elemLeft : ℚ
  elemTop : ℚ
deriving DecidableEq, Repr

/-- The initial field values of a fresh Touches instance. -/
def touchesInit : TouchesState :=
  { eventType := TEv.undef, startX := 0, startY := 0, lastTap := 0,
    touchstartTime := 0, detectSwipeCounter := 0, isMousedown := false,
    timeoutArmed := false, elemLeft := 0, elemTop := 0 }

/-- Touches constants doubleTapMinTimeout and tapMinTimeout. -/
def doubleTapMinTimeout : ℚ := 300

/-- Touches constant tapMinTimeout. -/
def tapMinTimeout : ℚ := 200

/-- Touches.detectDoubleTap: returns whether this release completes a
double tap and the updated state. Outside a directional gesture it clears
the pending timer; when the interval since lastTap is in (0, 300) it
reports a double tap without touching lastTap, otherwise it re-arms the
timer and records this release time as lastTap. -/
def detectDoubleTap (st : TouchesState) (now : ℚ) : Bool × TouchesState :=
  if st.eventType ≠ TEv.undef then (false, st)
  else
    let tapLength := now - st.lastTap
    let st1 := { st with timeoutArmed := false }
    if tapLength < doubleTapMinTimeout ∧ tapLength > 0 then (true, st1)
    else (false, { st1 with timeoutArmed := true, lastTap := now })

/-- Touches.detectTap: outside a directional gesture, classify the elapsed
press time as tap (under 200ms) or longtap. -/
def detectTap (st : TouchesState) (now : ℚ) : List TEmit :=
  if st.eventType ≠ TEv.undef then []
  else
    let tapLength := now - st.touchstartTime
    if tapLength > 0 then
      if tapLength < tapMinTimeout then [TEmit.tap] else [TEmit.longtap]
    else []

/-- Touches.handleTouchstart: refresh the element position (unchanged in
the model), record the press time, and when no gesture is active record the
start point. -/
def handleTouchstartT (st : TouchesState) (now x y : ℚ) : TouchesState × List TEmit :=
  let st1 := { st with touchstartTime := now }
  let st2 :=
    if st1.eventType = TEv.undef then
      { st1 with startX := x - st1.elemLeft, startY := y - st1.elemTop }
    else st1
  (st2, [TEmit.touchstartE])

/-- Touches.handleTouchend: run double-tap then tap detection, notify
touchend, set eventType to touchend, and when no contacts remain reset the
gesture and the swipe counter. -/
def handleTouchendT (st : TouchesState) (now : ℚ) (touchesLen : ℕ) :
    TouchesState × List TEmit :=
  let dd := detectDoubleTap st now
  let e1 : List TEmit := if dd.1 then [TEmit.doubleTap] else []
  let e2 := detectTap dd.2 now
  let st2 := { dd.2 with eventType := TEv.touchend }
  let st3 :=
    if touchesLen = 0 then { st2 with eventType := TEv.undef, detectSwipeCounter := 0 }
    else st2
  (st3, e1 ++ e2 ++ [TEmit.touchendE])

/-- Touches.getLinearSwipeType for a mouse event at client position (x, y):
before a swipe is latched, compare the displacement from the start point;
afterwards return the latched direction. -/
def getLinearSwipeType (st : TouchesState) (x y : ℚ) : TEv :=
  if st.eventType ≠ TEv.hswipe ∧ st.eventType ≠ TEv.vswipe then
    let movementX := |x - st.elemLeft - st.startX|
    let movementY := |y - st.elemTop - st.startY|
    if movementY * 3 > movementX then TEv.vswipe else TEv.hswipe
  else st.eventType

/-- Touches.handleMousedown: left button only; set the pressed flag, the
press time, and outside a gesture the start point. -/
def handleMousedownT (st : TouchesState) (now x y : ℚ) (button : ℕ) :
    TouchesState × List TEmit :=
  if button ≠ 0 then (st, [])
  else
    let st1 := { st with isMousedown := true, touchstartTime := now }
    let st2 :=
      if st1.eventType = TEv.undef then
        { st1 with startX := x - st1.elemLeft, startY := y - st1.elemTop }
      else st1
    (st2, [TEmit.mousedownE])

/-- Touches.handleMousemove: ignore hover movement; emit pan, and when the
linear-swipe gate is open (detectLinearSwipe returns a direction, which for
mouse input happens whenever no non-swipe gesture is active) bump the
consecutive-sample counter, latch the swipe direction once the counter
exceeds 3, and emit the latched direction. -/
def handleMousemoveT (st : TouchesState) (x y : ℚ) : TouchesState × List TEmit :=
  if st.isMousedown = false then (st, [])
  else
    let qualifies :=
      st.eventType = TEv.undef ∨ st.eventType = TEv.hswipe ∨ st.eventType = TEv.vswipe
    if qualifies then
      let st1 := { st with detectSwipeCounter := st.detectSwipeCounter + 1 }
      let st2 :=
        if st1.detectSwipeCounter > 3 then
          { st1 with eventType := getLinearSwipeType st1 x y }
        else st1
      let e2 : List TEmit := if st2.eventType = TEv.hswipe then [TEmit.hswipeE] else []
      let e3 : List TEmit := if st2.eventType = TEv.vswipe then [TEmit.vswipeE] else []
      (st2, TEmit.panE :: (e2 ++ e3))
    else (st, [TEmit.panE])

/-- An input to the touch-event trace runner: a touchstart at a time and
client position, or a touchend at a time with the count of remaining
contacts. -/
inductive TIn where
  | tstart (now x y : ℚ)
  | tend (now : ℚ) (remaining : ℕ)
deriving DecidableEq, Repr

/-- Run a list of touch inputs through the recognizer, collecting every
emitted event in order. -/
def touchesRun (st : TouchesState) : List TIn → TouchesState × List TEmit
  | [] => (st, [])
  | TIn.tstart now x y :: rest =>
    let r := handleTouchstartT st now x y
    let r2 := touchesRun r.1 rest
    (r2.1, r.2 ++ r2.2)
  | TIn.tend now remaining :: rest =>
    let r := handleTouchendT st now remaining
    let r2 := touchesRun r.1 rest
    (r2.1, r.2 ++ r2.2)

/-- Number of tap events in an emission list. -/
def countTap (es : List TEmit) : ℕ := es.count TEmit.tap

/-- Number of double-tap events in an emission list. -/
def countDoubleTap (es : List TEmit) : ℕ := es.count TEmit.doubleTap

/-!
Object-level model of an IvyPinch instance, used to examine construction
with a missing surface element. The constructor returns immediately when
params.element is falsy, leaving this.params, this.touches, this.maxScale
and this.element unset; the model records these as Option/Bool fields. A
public operation returns the resulting object together with an optional
error: some error models a TypeError thrown by dereferencing an unset
field, at the point in the source where the first such dereference occurs.
-/

/-- The observable instance fields of an IvyPinch object. handlers lists
the semantic-event registrations made through touches.on. -/
structure IvyPinchObj where
  element : Bool
  params : Option PZParams
  touchesCreated : Bool
  handlers : List String
  maxScale : Option ℚ
  scale : ℚ
  initialScale : ℚ
  moveX : ℚ
  moveY : ℚ
  initialMoveX : ℚ
  initialMoveY : ℚ
deriving DecidableEq, Repr

/-- The IvyPinch constructor. With no element it returns after the first
assignment, attaching nothing; otherwise it resolves maxScale from a
numeric limitZoom (falling back to the default 3 inside detectLimitZoom),
creates the Touches instance and registers the semantic handlers. -/
def mkIvyPinch (elementPresent : Bool) (limitZoomNum : Option ℚ) (p : PZParams) :
    IvyPinchObj :=
  if elementPresent = false then
    { element := false, params := none, touchesCreated := false, handlers := [],
      maxScale := none, scale := 1, initialScale := 1, moveX := 0, moveY := 0,
      initialMoveX := 0, initialMoveY := 0 }
  else
    { element := true, params := some p, touchesCreated := true,
      handlers := ["touchstart", "touchend", "touchcancel", "mousedown", "mouseup",
                   "pan", "mousemove", "pinch"]
        ++ (if p.wheel then ["wheel"] else [])
        ++ (if p.doubleTap then ["double-tap"] else [])
        ++ (if p.autoHeight then ["resize"] else []),
      maxScale := some (limitZoomNum.getD 3), scale := 1, initialScale := 1,
      moveX := 0, moveY := 0, initialMoveX := 0, initialMoveY := 0 }

/-- IvyPinch.toggleZoom invoked through the public surface, where the event
argument defaults to false, so only the zoom-control branch is reachable at
committed scale 1. Reading this.params.zoomControlScale throws when
this.params is unset; this.element.offsetWidth throws when the element is
unset (after this.scale was already assigned). -/
def toggleZoomO (g : Geometry) (o : IvyPinchObj) : IvyPinchObj × Option String :=
  if o.initialScale = 1 then
    match o.params with
    | none => (o, some "TypeError: this.params is undefined")
    | some p =>
      let scale := o.initialScale * (p.zoomControlScale + 1)
      let o1 := { o with scale := scale }
      if o.element = false then (o1, some "TypeError: this.element is undefined")
      else
        let moveX := o1.initialMoveX - g.elementWidth * (scale - 1) / 2
        let moveY := o1.initialMoveY - g.elementHeight * (scale - 1) / 2
        let c := centeringImage g scale moveX moveY
        ({ o1 with moveX := c.1, moveY := c.2, initialScale := scale,
                   initialMoveX := c.1, initialMoveY := c.2 }, none)
  else
    let o1 := { o with scale := 1, moveX := 0, moveY := 0, initialScale := 1, initialMoveX := 0, initialMoveY := 0 }
    if o.element = false then (o1, some "TypeError: this.element is undefined")
    else (o1, none)

/-- IvyPinch.detectLimitZoom: assign the default 3 to maxScale when it is
still unset, then read this.params.limitZoom, which throws when this.params
is unset; the original-image polling it may start is asynchronous and does
not change the synchronous state. -/
def detectLimitZoomO (o : IvyPinchObj) : IvyPinchObj × Option String :=
  let o1 := { o with maxScale := some (o.maxScale.getD 3) }
  match o1.params with
  | none => (o1, some "TypeError: this.params is undefined")
  | some _p => (o1, none)

/-- IvyPinch.isDragging: reads this.params.disablePan first (throws when
params is unset), then the image dimensions through this.element (throws
when the element is unset); returns undefined below scale 1. -/
def isDraggingO (g : Geometry) (o : IvyPinchObj) : Option Bool × Option String :=
  match o.params with
  | none => (none, some "TypeError: this.params is undefined")
  | some p =>
    if p.disablePan then (some false, none)
    else if o.element = false then (none, some "TypeError: this.element is undefined")
    else
      if o.scale > 1 then
        (some (decide (g.imageHeight * o.scale > g.parentHeight ∨
                       g.imageWidth * o.scale > g.parentWidth)), none)
      else if o.scale = 1 then
        (some (decide (g.imageHeight > g.parentHeight ∨ g.imageWidth > g.parentWidth)), none)
      else (none, none)

/-- IvyPinch.isTouchScreen delegates to this.touches.detectTouchScreen, a
platform capability probe (modelled as a Bool parameter); it throws when
this.touches was never created. -/
def isTouchScreenO (platformTouch : Bool) (o : IvyPinchObj) : Option Bool × Option String :=
  if o.touchesCreated = false then (none, some "TypeError: this.touches is undefined")
  else (some platformTouch, none)

/-- IvyPinch.destroy: removeBasicStyles writes this.element.style (throws
when the element is unset), then touches.destroy removes the raw listeners. -/
def destroyO (o : IvyPinchObj) : IvyPinchObj × Option String :=
  if o.element = false then (o, some "TypeError: this.element is undefined")
  else ({ o with handlers := [] }, none)

/-!
Concrete fixtures shared by the witnesses and counterexamples. defP is the
resolved default configuration of params.ts (minScale 0, zoomControlScale 1,
doubleTapScale 2, wheelZoomFactor 0.2, pan limiting off); defG is a square
geometry whose image fills the element inside a slightly smaller parent.
-/

/-- Resolved default configuration of params.ts. -/
def defP : PZParams :=
  { minScale := 0, limitPan := false, disablePan := false, zoomControlScale := 1,
    doubleTapScale := some 2, wheelZoomFactor := 1/5, wheel := true,
    doubleTap := true, autoHeight := false }

/-- A concrete geometry: 1000x1000 image and element, 900x900 parent. -/
def defG : Geometry :=
  { imageWidth := 1000, imageHeight := 1000, elementWidth := 1000,
    elementHeight := 1000, parentWidth := 900, parentHeight := 900,
    rectLeft := 0, rectTop := 0, hasImage := true }

/-- A committed engine state at scale 1 with zero translation. -/
def stInit : PinchState :=
  { scale := 1, initialScale := 1, moveX := 0, moveY := 0, initialMoveX := 0,
    initialMoveY := 0, moveXC := 0, moveYC := 0, distance := 0, initialDistance := 0,
    maxScale := 3, eventType := EvT.undef, elemLeft := 0, elemTop := 0 }

/-- A mid-pinch state whose live scale collapsed to 0 (contacts met again). -/
def c1st : PinchState :=
  { stInit with scale := 0, moveX := -10, moveY := -10, eventType := EvT.pinch,
                initialDistance := 100 }

/-- A mid-pinch state whose live scale overshot maxScale. -/
def c1wst : PinchState :=
  { stInit with scale := 4, moveX := -30, moveY := -60, eventType := EvT.pinch,
                initialDistance := 100 }

/-- A committed state at scale 2.65, one wheel step below the 2.8 snap band. -/
def c8stA : PinchState := { stInit with scale := 53/20, initialScale := 53/20 }

/-- A committed state at scale 1.25, one wheel step above the 1.2 snap band. -/
def c8stB : PinchState := { stInit with scale := 5/4, initialScale := 5/4 }

/-- A committed state at the maximum scale 3. -/
def c8stC : PinchState := { stInit with scale := 3, initialScale := 3 }

/-- A pinch event whose two contacts coincide exactly. -/
def c3e : PinchEvt :=
  { t0 := { clientX := 5, clientY := 5, pageX := 7, pageY := 9 },
    t1 := { clientX := 5, clientY := 5, pageX := 7, pageY := 9 } }

/-- An idle state about to receive a pinch entry. -/
def c3st : PinchState := { stInit with initialDistance := 50 }

/-- Two contacts 100 pixels apart along the x axis. -/
def eA1 : PinchEvt :=
  { t0 := { clientX := 0, clientY := 0, pageX := 0, pageY := 0 },
    t1 := { clientX := 100, clientY := 0, pageX := 100, pageY := 0 } }

/-- Two contacts 200 pixels apart along the x axis. -/
def eA2 : PinchEvt :=
  { t0 := { clientX := 0, clientY := 0, pageX := 0, pageY := 0 },
    t1 := { clientX := 200, clientY := 0, pageX := 200, pageY := 0 } }

/-- Two contacts 400 pixels apart along the x axis. -/
def eA3 : PinchEvt :=
  { t0 := { clientX := 0, clientY := 0, pageX := 0, pageY := 0 },
    t1 := { clientX := 400, clientY := 0, pageX := 400, pageY := 0 } }

/-- A committed mid-pinch state at scale 2 with a recorded focus point. -/
def c2stA : PinchState :=
  { stInit with eventType := EvT.pinch, scale := 2, initialScale := 2,
                initialDistance := 100, moveXC := 10, moveYC := 20,
                initialMoveX := -5, initialMoveY := -5 }

/-- Touch trace: two short presses whose releases are 150ms apart. -/
def c4trace1 : List TIn :=
  [TIn.tstart 1000 10 10, TIn.tend 1050 0, TIn.tstart 1150 10 10, TIn.tend 1200 0]

/-- Touch trace: one short press, then silence. -/
def c4trace2 : List TIn := [TIn.tstart 2000 10 10, TIn.tend 2050 0]

/-- Mouse trace: press at the origin, then four moves 30px right and 5px
down, the sustained-sample scenario of the swipe-latch claim. -/
def c9run : TouchesState × List TEmit :=
  let d := handleMousedownT touchesInit 500 0 0 0
  let m1 := handleMousemoveT d.1 30 5
  let m2 := handleMousemoveT m1.1 30 5
  let m3 := handleMousemoveT m2.1 30 5
  let m4 := handleMousemoveT m3.1 30 5
  (m4.1, d.2 ++ m1.2 ++ m2.2 ++ m3.2 ++ m4.2)

/-! Helper lemmas. -/

theorem mathSqrt_natCast_sq (n : ℕ) : mathSqrt ((n : ℚ) ^ 2) = n := by
  unfold mathSqrt
  have h1 : ((n : ℚ) ^ 2).num = (n : ℤ) ^ 2 := by
    rw [Rat.num_pow, Rat.num_natCast]
  have h2 : ((n : ℚ) ^ 2).den = 1 := by
    rw [Rat.den_pow, Rat.den_natCast, one_pow]
  rw [h1, h2]
  have h3 : ((n : ℤ) ^ 2).toNat = n ^ 2 := by
    rw [show ((n : ℤ) ^ 2) = ((n ^ 2 : ℕ) : ℤ) by push_cast; ring, Int.toNat_natCast]
  rw [h3, Nat.sqrt_eq', Nat.sqrt_one, Nat.cast_one, div_one]

theorem mathSqrt_zero : mathSqrt 0 = 0 := by
  have h := mathSqrt_natCast_sq 0
  norm_num at h
  exact h

theorem mathSqrt_pos (q : ℚ) (hq : 0 < q) : 0 < mathSqrt q := by
  unfold mathSqrt
  apply div_pos
  · have h1 : 0 < q.num := Rat.num_pos.mpr hq
    have h2 : 0 < q.num.toNat := by omega
    exact_mod_cast Nat.sqrt_pos.mpr h2
  · exact_mod_cast Nat.sqrt_pos.mpr q.pos

theorem mathSqrt_10000 : mathSqrt 10000 = 100 := by
  have h := mathSqrt_natCast_sq 100
  norm_num at h
  exact h

theorem mathSqrt_40000 : mathSqrt 40000 = 200 := by
  have h := mathSqrt_natCast_sq 200
  norm_num at h
  exact h

theorem mathSqrt_160000 : mathSqrt 160000 = 400 := by
  have h := mathSqrt_natCast_sq 400
  norm_num at h
  exact h

theorem setZoom_scale_eq (g : Geometry) (st : PinchState) (s : ℚ) (c : Option (ℚ × ℚ)) :
    (setZoom g st s c).scale = s := by
  simp [setZoom, updateInitialValues]

/-! Claim theorems. -/

/-- C10: handleTouchcancel sets the live scale to exactly 1, realigns the
image (the final translation is the centering of the pre-cancel translation
at scale 1), commits the live values, and resets the gesture to none, for
every prior state including zoomed ones. -/
theorem touchcancel_discards_zoom (g : Geometry) (st : PinchState) :
    (handleTouchcancel g st).scale = 1 ∧
    (handleTouchcancel g st).initialScale = 1 ∧
    (handleTouchcancel g st).initialMoveX = (handleTouchcancel g st).moveX ∧
    (handleTouchcancel g st).initialMoveY = (handleTouchcancel g st).moveY ∧
    (handleTouchcancel g st).eventType = EvT.undef ∧
    ((handleTouchcancel g st).moveX, (handleTouchcancel g st).moveY) =
      centeringImage g 1 st.moveX st.moveY := by
  simp only [handleTouchcancel, alignImage, updateInitialValues]
  split_ifs <;> simp

/-- C7: from a committed scale of 1 (with a nonzero zoom-control step, the
default being 1), two toggle-zoom calls return the state to scale exactly 1
and translation exactly (0, 0), committed. -/
theorem toggleZoom_twice_resets (p : PZParams) (g : Geometry) (st : PinchState)
    (h1 : st.initialScale = 1) (hz : p.zoomControlScale ≠ 0) :
    (toggleZoom p g (toggleZoom p g st none) none).scale = 1 ∧
    (toggleZoom p g (toggleZoom p g st none) none).moveX = 0 ∧
    (toggleZoom p g (toggleZoom p g st none) none).moveY = 0 ∧
    (toggleZoom p g (toggleZoom p g st none) none).initialScale = 1 ∧
    (toggleZoom p g (toggleZoom p g st none) none).initialMoveX = 0 ∧
    (toggleZoom p g (toggleZoom p g st none) none).initialMoveY = 0 := by
  have hcond : ¬(p.zoomControlScale + 1 = 1) := by
    intro hc
    exact hz (by linarith)
  have hcond2 : ¬(st.initialScale * (p.zoomControlScale + 1) = 1) := by
    rw [h1, one_mul]
    exact hcond
  simp [toggleZoom, updateInitialValues, resetScale, h1, hcond, hcond2]

/-- C7 witness: the double toggle evaluated at the default configuration
from the committed identity state. -/
theorem toggleZoom_twice_resets_witness :
    (toggleZoom defP defG (toggleZoom defP defG stInit none) none).scale = 1 ∧
    (toggleZoom defP defG (toggleZoom defP defG stInit none) none).moveX = 0 ∧
    (toggleZoom defP defG (toggleZoom defP defG stInit none) none).moveY = 0 ∧
    (toggleZoom defP defG (toggleZoom defP defG stInit none) none).initialScale = 1 ∧
    (toggleZoom defP defG (toggleZoom defP defG stInit none) none).initialMoveX = 0 ∧
    (toggleZoom defP defG (toggleZoom defP defG stInit none) none).initialMoveY = 0 :=
  toggleZoom_twice_resets defP defG stInit rfl (by norm_num [defP])

/-- C8: with wheel step 0.2 and maxScale 3, a wheel whose raw stepped scale
is 2.85 ends at scale exactly 3, one whose raw stepped scale is 1.05 ends
at scale exactly 1, and the handler leaves the state unchanged whenever the
snapped scale is below 1, above maxScale, or equal to the live scale. -/
theorem handleWheel_snapping (p : PZParams) (g : Geometry) (st : PinchState)
    (deltaY clientX clientY : ℚ)
    (hw : p.wheelZoomFactor = 1/5) (hm : st.maxScale = 3) :
    (st.initialScale + (if deltaY < 0 then p.wheelZoomFactor else -p.wheelZoomFactor) = 57/20 →
      (handleWheel p g st deltaY clientX clientY).scale = 3) ∧
    (st.initialScale + (if deltaY < 0 then p.wheelZoomFactor else -p.wheelZoomFactor) = 21/20 →
      (handleWheel p g st deltaY clientX clientY).scale = 1) ∧
    (wheelNewScale p st deltaY < 1 ∨ st.maxScale < wheelNewScale p st deltaY ∨
      wheelNewScale p st deltaY = st.scale →
      handleWheel p g st deltaY clientX clientY = st) := by
  refine ⟨?_, ?_, ?_⟩
  · intro hraw
    rw [hw] at hraw
    have hns : wheelNewScale p st deltaY = 3 := by
      simp only [wheelNewScale, hw, hm, hraw]
      norm_num
    simp only [handleWheel, hns, hm]
    norm_num
    by_cases h3 : (3 : ℚ) = st.scale
    · rw [if_pos h3]
      exact h3.symm
    · rw [if_neg h3]
      exact setZoom_scale_eq _ _ _ _
  · intro hraw
    rw [hw] at hraw
    have hns : wheelNewScale p st deltaY = 1 := by
      simp only [wheelNewScale, hw, hm, hraw]
      norm_num
    simp only [handleWheel, hns, hm]
    norm_num
    by_cases h1 : (1 : ℚ) = st.scale
    · rw [if_pos h1]
      exact h1.symm
    · rw [if_neg h1]
      exact setZoom_scale_eq _ _ _ _
  · intro h
    simp only [handleWheel]
    rcases h with h | h | h
    · rw [if_pos (Or.inl h)]
    · rw [if_pos (Or.inr h)]
    · by_cases hb : wheelNewScale p st deltaY < 1 ∨ wheelNewScale p st deltaY > st.maxScale
      · rw [if_pos hb]
      · rw [if_neg hb, if_pos h]

/-- C8 witness: the three behaviors evaluated concretely: stepping up from
2.65 snaps to 3, stepping down from 1.25 snaps to 1, and stepping up from
the maximum 3 is a no-op. -/
theorem handleWheel_snapping_witness :
    (handleWheel defP defG c8stA (-1) 0 0).scale = 3 ∧
    (handleWheel defP defG c8stB 1 0 0).scale = 1 ∧
    handleWheel defP defG c8stC (-1) 0 0 = c8stC :=
  ⟨(handleWheel_snapping defP defG c8stA (-1) 0 0 (by norm_num [defP])
      (by norm_num [c8stA, stInit])).1 (by norm_num [c8stA, stInit, defP]),
   (handleWheel_snapping defP defG c8stB 1 0 0 (by norm_num [defP])
      (by norm_num [c8stB, stInit])).2.1 (by norm_num [c8stB, stInit, defP]),
   (handleWheel_snapping defP defG c8stC (-1) 0 0 (by norm_num [defP])
      (by norm_num [c8stC, stInit])).2.2
     (by norm_num [wheelNewScale, c8stC, stInit, defP])⟩

theorem clampRatioEq (m A B : ℚ) (hA : 0 < A) (hB : 0 < B) (hm : m ≤ 0) :
    -|m / A * B| * A = m * B := by
  have hr : m / A ≤ 0 := div_nonpos_iff.mpr (Or.inr ⟨hm, hA.le⟩)
  have hprod : m / A * B ≤ 0 := mul_nonpos_iff.mpr (Or.inr ⟨hr, hB.le⟩)
  rw [abs_of_nonpos hprod, neg_neg, div_mul_eq_mul_div, div_mul_cancel₀ _ hA.ne']

/-- C1 counterexample: a pinch whose live scale fell to the minScale floor
(here the default 0) leaves the clamped scale exactly AT minScale, not
above it: the enforced scale drops to minScale, refuting the claim that it
never drops at or below minScale. -/
theorem limit_zoom_reaches_minScale :
    (handleLimitZoom defP defG c1st).scale ≤ defP.minScale := by
  norm_num [handleLimitZoom, defP, defG, c1st, stInit]

/-- C1 amended: whenever minScale does not exceed maxScale, the enforced
scale lies in the closed interval from minScale to maxScale (it can equal
minScale); and when a pinch overshoots maxScale, with maxScale above 1,
positive image dimensions and non-positive pre-clamp translation (the state
an inward pinch from a committed non-positive translation produces), the
scale clamps to maxScale and the translation keeps the pre-clamp pan
ratios: the new translation over the new overflow equals the old
translation over the old overflow, stated cross-multiplied. -/
theorem limit_zoom_bounds (p : PZParams) (g : Geometry) (st : PinchState)
    (hms : p.minScale ≤ st.maxScale) :
    p.minScale ≤ (handleLimitZoom p g st).scale ∧
    (handleLimitZoom p g st).scale ≤ st.maxScale ∧
    (st.maxScale < st.scale → 1 < st.maxScale → 0 < g.imageWidth → 0 < g.imageHeight →
      st.moveX ≤ 0 → st.moveY ≤ 0 →
      (handleLimitZoom p g st).scale = st.maxScale ∧
      (handleLimitZoom p g st).moveX * (g.imageWidth * st.scale - g.imageWidth) =
        st.moveX * (g.imageWidth * st.maxScale - g.imageWidth) ∧
      (handleLimitZoom p g st).moveY * (g.imageHeight * st.scale - g.imageHeight) =
        st.moveY * (g.imageHeight * st.maxScale - g.imageHeight)) := by
  refine ⟨?_, ?_, ?_⟩
  · by_cases h0 : st.scale > st.maxScale ∨ st.scale ≤ p.minScale
    · simp only [handleLimitZoom, if_pos h0]
      split_ifs <;> (try simp) <;> linarith
    · simp only [handleLimitZoom, if_neg h0]
      push_neg at h0
      linarith [h0.2]
  · by_cases h0 : st.scale > st.maxScale ∨ st.scale ≤ p.minScale
    · simp only [handleLimitZoom, if_pos h0]
      split_ifs <;> (try simp) <;> linarith
    · simp only [handleLimitZoom, if_neg h0]
      push_neg at h0
      linarith [h0.1]
  · intro hov hL hW hH hX hY
    have h0 : st.scale > st.maxScale ∨ st.scale ≤ p.minScale := Or.inl hov
    have hA : 0 < g.imageWidth * st.scale - g.imageWidth := by nlinarith
    have hAh : 0 < g.imageHeight * st.scale - g.imageHeight := by nlinarith
    simp only [handleLimitZoom, if_pos h0, if_pos hov]
    by_cases hq : st.maxScale ≤ p.minScale
    · have heq : p.minScale = st.maxScale := le_antisymm hms hq
      have hB : 0 < g.imageWidth * st.maxScale - g.imageWidth := by nlinarith
      have hBh : 0 < g.imageHeight * st.maxScale - g.imageHeight := by nlinarith
      rw [if_pos hq, heq]
      refine ⟨rfl, ?_, ?_⟩
      · exact clampRatioEq st.moveX _ _ hA hB hX
      · rw [show -(st.moveY / (g.imageHeight * st.scale - g.imageHeight)) *
              (g.imageHeight * st.maxScale - g.imageHeight) =
            -(st.moveY / (g.imageHeight * st.scale - g.imageHeight) *
              (g.imageHeight * st.maxScale - g.imageHeight)) from by ring, abs_neg]
        exact clampRatioEq st.moveY _ _ hAh hBh hY
    · have hB : 0 < g.imageWidth * st.maxScale - g.imageWidth := by nlinarith
      have hBh : 0 < g.imageHeight * st.maxScale - g.imageHeight := by nlinarith
      rw [if_neg hq]
      refine ⟨rfl, ?_, ?_⟩
      · exact clampRatioEq st.moveX _ _ hA hB hX
      · rw [show -(st.moveY / (g.imageHeight * st.scale - g.imageHeight)) *
              (g.imageHeight * st.maxScale - g.imageHeight) =
            -(st.moveY / (g.imageHeight * st.scale - g.imageHeight) *
              (g.imageHeight * st.maxScale - g.imageHeight)) from by ring, abs_neg]
        exact clampRatioEq st.moveY _ _ hAh hBh hY

/-- C1 witness: the amended bounds and the ratio-preserving clamp evaluated
at a pinch that overshot to scale 4 with maxScale 3. -/
theorem limit_zoom_bounds_witness :
    defP.minScale ≤ (handleLimitZoom defP defG c1wst).scale ∧
    (handleLimitZoom defP defG c1wst).scale ≤ c1wst.maxScale ∧
    ((handleLimitZoom defP defG c1wst).scale = c1wst.maxScale ∧
     (handleLimitZoom defP defG c1wst).moveX *
        (defG.imageWidth * c1wst.scale - defG.imageWidth) =
       c1wst.moveX * (defG.imageWidth * c1wst.maxScale - defG.imageWidth) ∧
     (handleLimitZoom defP defG c1wst).moveY *
        (defG.imageHeight * c1wst.scale - defG.imageHeight) =
       c1wst.moveY * (defG.imageHeight * c1wst.maxScale - defG.imageHeight)) := by
  have h := limit_zoom_bounds defP defG c1wst (by norm_num [defP, c1wst, stInit])
  exact ⟨h.1, h.2.1, h.2.2 (by norm_num [c1wst, stInit]) (by norm_num [c1wst, stInit])
    (by norm_num [defG]) (by norm_num [defG]) (by norm_num [c1wst, stInit])
    (by norm_num [c1wst, stInit])⟩

/-- C3 counterexample: handlePinch has no guard on the divisor. At a pinch
entry whose two contacts coincide exactly, getDistance is 0 and the handler
stores 0 as initialDistance, the divisor of every subsequent scale
computation, refuting the claim that the scale computation never divides by
zero (in JavaScript 0/0 is NaN). -/
theorem pinch_entry_zero_divisor :
    getDistance c3e = 0 ∧ (handlePinch defP defG c3st c3e).initialDistance = 0 := by
  have hd : getDistance c3e = 0 := by
    norm_num [getDistance, c3e, mathSqrt_zero]
  refine ⟨hd, ?_⟩
  norm_num [handlePinch, handleLimitZoom, defP, defG, c3st, stInit, hd]

/-- C3 amended: the divisor getDistance stored at pinch entry is zero
exactly when the two contacts coincide; whenever the contacts are distinct
in page coordinates it is strictly positive, so the scale computation has a
nonzero divisor only in that case — the guard the claim describes does not
exist in the code. -/
theorem getDistance_zero_iff (e : PinchEvt) :
    (getDistance e = 0 ↔ e.t0.pageX = e.t1.pageX ∧ e.t0.pageY = e.t1.pageY) ∧
    (e.t0.pageX ≠ e.t1.pageX ∨ e.t0.pageY ≠ e.t1.pageY → 0 < getDistance e) := by
  have hS : (0:ℚ) ≤ (e.t0.pageX - e.t1.pageX) ^ 2 + (e.t0.pageY - e.t1.pageY) ^ 2 := by
    positivity
  have hzero : (e.t0.pageX - e.t1.pageX) ^ 2 + (e.t0.pageY - e.t1.pageY) ^ 2 = 0 ↔
      e.t0.pageX = e.t1.pageX ∧ e.t0.pageY = e.t1.pageY := by
    rw [add_eq_zero_iff_of_nonneg (sq_nonneg _) (sq_nonneg _)]
    rw [pow_eq_zero_iff (two_ne_zero), pow_eq_zero_iff (two_ne_zero)]
    rw [sub_eq_zero, sub_eq_zero]
  have hpos : e.t0.pageX ≠ e.t1.pageX ∨ e.t0.pageY ≠ e.t1.pageY → 0 < getDistance e := by
    intro h
    have hS0 : (e.t0.pageX - e.t1.pageX) ^ 2 + (e.t0.pageY - e.t1.pageY) ^ 2 ≠ 0 := by
      intro hc
      rcases h with h | h
      · exact h (hzero.mp hc).1
      · exact h (hzero.mp hc).2
    exact mathSqrt_pos _ (lt_of_le_of_ne hS (Ne.symm hS0))
  refine ⟨⟨?_, ?_⟩, hpos⟩
  · intro h0
    by_contra hc
    rw [Classical.not_and_iff_or_not_not] at hc
    exact absurd h0 (ne_of_gt (hpos hc))
  · intro h
    unfold getDistance
    rw [hzero.mpr h, mathSqrt_zero]

/-- C3 witness: the divisor evaluated at two contacts 100 pixels apart is
positive. -/
theorem getDistance_zero_iff_witness : 0 < getDistance eA1 :=
  (getDistance_zero_iff eA1).2 (by norm_num [eA1])

/-- C5 counterexample: on an instance constructed with no surface element,
the public toggleZoom is not a silent no-op: it dereferences the unset
this.params and throws a TypeError. -/
theorem no_element_toggleZoom_throws :
    ¬((toggleZoomO defG (mkIvyPinch false none defP)).2 = none) := by
  simp [toggleZoomO, mkIvyPinch]

/-- C5 amended: construction with no valid surface element attaches no
listeners and creates no recognizer, but the public operations on such an
instance are not no-ops: toggleZoom, detectLimitZoom, isDragging,
isTouchScreen and destroy each throw a TypeError on an unset internal
field, and detectLimitZoom additionally mutates maxScale to the default 3
before throwing. -/
theorem no_element_disables (p : PZParams) (lz : Option ℚ) (g : Geometry) (pt : Bool) :
    (mkIvyPinch false lz p).handlers = [] ∧
    (mkIvyPinch false lz p).touchesCreated = false ∧
    (toggleZoomO g (mkIvyPinch false lz p)).2.isSome = true ∧
    ((detectLimitZoomO (mkIvyPinch false lz p)).2.isSome = true ∧
      (detectLimitZoomO (mkIvyPinch false lz p)).1.maxScale = some 3) ∧
    (isDraggingO g (mkIvyPinch false lz p)).2.isSome = true ∧
    (isTouchScreenO pt (mkIvyPinch false lz p)).2.isSome = true ∧
    (destroyO (mkIvyPinch false lz p)).2.isSome = true := by
  simp [mkIvyPinch, toggleZoomO, detectLimitZoomO, isDraggingO, isTouchScreenO, destroyO]

/-- C6 counterexample: from the committed identity state, set-zoom to scale
2 about center (100, 100) followed by set-zoom to scale 1 about the same
center leaves translateX at -50 instead of restoring the pre-zoom value 0,
a 50 pixel discrepancy far beyond floating-point tolerance. -/
theorem setZoom_round_trip_fails :
    ¬((setZoom defG (setZoom defG stInit 2 (some (100, 100))) 1 (some (100, 100))).moveX
        = stInit.moveX) := by
  norm_num [setZoom, centeringImage, limitPanX, limitPanY, updateInitialValues, defG, stInit]

/-- C6 amended: starting from a committed state, when the centering pass
leaves both intermediate translations unchanged, the set-zoom round trip
through scale s about center c ends with translation equal to the pre-zoom
committed translation PLUS the residual (2 - s/s0 - 1/s) times c, where s0
is the starting committed scale; the translation is restored only when that
residual factor vanishes (for instance s = s0 = 1 or c = 0), not in
general. -/
theorem setZoom_round_trip_residual (g : Geometry) (st : PinchState) (s : ℚ) (c : ℚ × ℚ)
    (hW : g.elementWidth ≠ 0)
    (hc1 : centeringImage g s
        (st.initialMoveX - (s / st.initialScale * c.1 - c.1))
        (st.initialMoveY - (s / st.initialScale * c.2 - c.2)) =
      (st.initialMoveX - (s / st.initialScale * c.1 - c.1),
       st.initialMoveY - (s / st.initialScale * c.2 - c.2)))
    (hc2 : centeringImage g 1
        (st.initialMoveX - (s / st.initialScale * c.1 - c.1) - (1 / s * c.1 - c.1))
        (st.initialMoveY - (s / st.initialScale * c.2 - c.2) - (1 / s * c.2 - c.2)) =
      (st.initialMoveX - (s / st.initialScale * c.1 - c.1) - (1 / s * c.1 - c.1),
       st.initialMoveY - (s / st.initialScale * c.2 - c.2) - (1 / s * c.2 - c.2))) :
    (setZoom g (setZoom g st s (some c)) 1 (some c)).moveX =
      st.initialMoveX + (2 - s / st.initialScale - 1 / s) * c.1 ∧
    (setZoom g (setZoom g st s (some c)) 1 (some c)).moveY =
      st.initialMoveY + (2 - s / st.initialScale - 1 / s) * c.2 := by
  have h1 : setZoom g st s (some c) =
      { st with scale := s,
                moveX := st.initialMoveX - (s / st.initialScale * c.1 - c.1),
                moveY := st.initialMoveY - (s / st.initialScale * c.2 - c.2),
                initialScale := s,
                initialMoveX := st.initialMoveX - (s / st.initialScale * c.1 - c.1),
                initialMoveY := st.initialMoveY - (s / st.initialScale * c.2 - c.2) } := by
    simp only [setZoom, updateInitialValues]
    rw [mul_div_mul_left s st.initialScale hW, hc1]
  rw [h1]
  have h2 : setZoom g
      { st with scale := s,
                moveX := st.initialMoveX - (s / st.initialScale * c.1 - c.1),
                moveY := st.initialMoveY - (s / st.initialScale * c.2 - c.2),
                initialScale := s,
                initialMoveX := st.initialMoveX - (s / st.initialScale * c.1 - c.1),
                initialMoveY := st.initialMoveY - (s / st.initialScale * c.2 - c.2) }
      1 (some c) =
      { st with scale := 1,
                moveX := st.initialMoveX - (s / st.initialScale * c.1 - c.1) -
                  (1 / s * c.1 - c.1),
                moveY := st.initialMoveY - (s / st.initialScale * c.2 - c.2) -
                  (1 / s * c.2 - c.2),
                initialScale := 1,
                initialMoveX := st.initialMoveX - (s / st.initialScale * c.1 - c.1) -
                  (1 / s * c.1 - c.1),
                initialMoveY := st.initialMoveY - (s / st.initialScale * c.2 - c.2) -
                  (1 / s * c.2 - c.2) } := by
    simp only [setZoom, updateInitialValues]
    rw [mul_div_mul_left 1 s hW, hc2]
  rw [h2]
  constructor <;> (show _ = _; ring)

/-- C6 witness: the residual formula evaluated at the counterexample
round trip: scale 2 about (100, 100) from the committed identity state
ends at translation (2 - 2 - 1/2) * 100 = -50 on each axis. -/
theorem setZoom_round_trip_residual_witness :
    (setZoom defG (setZoom defG stInit 2 (some (100, 100))) 1 (some (100, 100))).moveX =
      stInit.initialMoveX + (2 - 2 / stInit.initialScale - 1 / 2) * (100, (100:ℚ)).1 ∧
    (setZoom defG (setZoom defG stInit 2 (some (100, 100))) 1 (some (100, 100))).moveY =
      stInit.initialMoveY + (2 - 2 / stInit.initialScale - 1 / 2) * (100, (100:ℚ)).2 :=
  setZoom_round_trip_residual defG stInit 2 (100, 100) (by norm_num [defG])
    (by norm_num [centeringImage, limitPanX, limitPanY, defG, stInit])
    (by norm_num [centeringImage, limitPanX, limitPanY, defG, stInit])

/-- C4 counterexample: two short presses whose releases are 150ms apart do
emit the double-tap, but they also emit a tap on each qualifying release
(detectTap runs regardless of the pending double-tap), so the sequence
emits two tap events, refuting the claim of zero tap events. -/
theorem double_tap_sequence_emits_taps :
    ¬(countTap (touchesRun touchesInit c4trace1).2 = 0) := by
  norm_num [touchesRun, c4trace1, handleTouchstartT, handleTouchendT, detectDoubleTap,
    detectTap, touchesInit, countTap, doubleTapMinTimeout, tapMinTimeout, List.count_cons]

/-- C4 amended: for two presses of positive duration under 200ms whose
releases are 150ms apart (the first release at absolute time at least
300ms, past the initial lastTap of 0), the recognizer emits exactly one
double-tap AND exactly two tap events, one per release; a single such press
followed by silence emits exactly one tap and no double-tap. -/
theorem tap_double_tap_events (t1 d1 t2 d2 x y : ℚ)
    (hd1a : 0 < d1) (hd1b : d1 < 200) (hd2a : 0 < d2) (hd2b : d2 < 200)
    (hfirst : 300 ≤ t1 + d1) (hgap : t2 + d2 - (t1 + d1) = 150) :
    countDoubleTap (touchesRun touchesInit
      [TIn.tstart t1 x y, TIn.tend (t1 + d1) 0,
       TIn.tstart t2 x y, TIn.tend (t2 + d2) 0]).2 = 1 ∧
    countTap (touchesRun touchesInit
      [TIn.tstart t1 x y, TIn.tend (t1 + d1) 0,
       TIn.tstart t2 x y, TIn.tend (t2 + d2) 0]).2 = 2 ∧
    countDoubleTap (touchesRun touchesInit
      [TIn.tstart t1 x y, TIn.tend (t1 + d1) 0]).2 = 0 ∧
    countTap (touchesRun touchesInit [TIn.tstart t1 x y, TIn.tend (t1 + d1) 0]).2 = 1 := by
  have hA : ¬(t1 + d1 < 300 ∧ t1 + d1 > 0) := by
    rintro ⟨h, _⟩
    linarith
  have hB : t2 + d2 - (t1 + d1) < 300 ∧ t2 + d2 - (t1 + d1) > 0 := by
    constructor <;> rw [hgap] <;> norm_num
  refine ⟨?_, ?_, ?_, ?_⟩ <;>
    norm_num [touchesRun, handleTouchstartT, handleTouchendT, detectDoubleTap, detectTap,
      touchesInit, countTap, countDoubleTap, doubleTapMinTimeout, tapMinTimeout,
      hA, hB, hd1a, hd1b, hd2a, hd2b, List.count_cons] <;>
    decide

/-- C4 witness: the amended counts evaluated at presses of 50ms starting at
times 1000 and 1150 (releases 150ms apart). -/
theorem tap_double_tap_events_witness :
    countDoubleTap (touchesRun touchesInit
      [TIn.tstart 1000 10 10, TIn.tend (1000 + 50) 0,
       TIn.tstart 1150 10 10, TIn.tend (1150 + 50) 0]).2 = 1 ∧
    countTap (touchesRun touchesInit
      [TIn.tstart 1000 10 10, TIn.tend (1000 + 50) 0,
       TIn.tstart 1150 10 10, TIn.tend (1150 + 50) 0]).2 = 2 ∧
    countDoubleTap (touchesRun touchesInit
      [TIn.tstart 1000 10 10, TIn.tend (1000 + 50) 0]).2 = 0 ∧
    countTap (touchesRun touchesInit
      [TIn.tstart 1000 10 10, TIn.tend (1000 + 50) 0]).2 = 1 :=
  tap_double_tap_events 1000 50 1150 50 10 10 (by norm_num) (by norm_num) (by norm_num)
    (by norm_num) (by norm_num) (by norm_num)

/-- C9: on a pressed mouse move with no gesture latched, the swipe state
latches exactly when the incremented consecutive-sample counter exceeds 3;
the latched direction is vertical-swipe when the vertical displacement from
the start point tripled exceeds the horizontal displacement and
horizontal-swipe otherwise; and concretely, a press at the origin followed
by four move samples at 30px horizontal, 5px vertical displacement latches
horizontal-swipe and emits the horizontal-swipe event. -/
theorem swipe_latch (ts : TouchesState) (x y : ℚ)
    (hm : ts.isMousedown = true) (he : ts.eventType = TEv.undef) :
    ((handleMousemoveT ts x y).1.eventType ≠ TEv.undef ↔ 3 < ts.detectSwipeCounter + 1) ∧
    (3 < ts.detectSwipeCounter + 1 →
      (((handleMousemoveT ts x y).1.eventType = TEv.vswipe ↔
          |y - ts.elemTop - ts.startY| * 3 > |x - ts.elemLeft - ts.startX|) ∧
       ((handleMousemoveT ts x y).1.eventType = TEv.hswipe ↔
          ¬(|y - ts.elemTop - ts.startY| * 3 > |x - ts.elemLeft - ts.startX|)))) ∧
    (c9run.1.eventType = TEv.hswipe ∧ TEmit.hswipeE ∈ c9run.2) := by
  refine ⟨?_, ?_, ?_⟩
  · by_cases h4 : 3 < ts.detectSwipeCounter + 1
    · simp only [handleMousemoveT, hm, he, getLinearSwipeType]
      norm_num [h4]
      split_ifs <;> simp
    · simp only [handleMousemoveT, hm, he]
      norm_num [h4]
  · intro h4
    by_cases hdir : |y - ts.elemTop - ts.startY| * 3 > |x - ts.elemLeft - ts.startX|
    · simp only [handleMousemoveT, hm, he, getLinearSwipeType]
      norm_num [h4, hdir]
      decide
    · simp only [handleMousemoveT, hm, he, getLinearSwipeType]
      norm_num [h4, hdir]
      decide
  · constructor <;>
      norm_num [c9run, handleMousedownT, handleMousemoveT, getLinearSwipeType,
        touchesInit] <;>
      decide

/-- C9 witness: the latch rule applied at a state three qualifying samples
in, moving to displacement (30, 5): the fourth sample latches, and the
direction resolves to horizontal-swipe. -/
theorem swipe_latch_witness :
    ((handleMousemoveT { touchesInit with isMousedown := true, detectSwipeCounter := 3 } 30 5).1.eventType ≠ TEv.undef ↔
        3 < ({ touchesInit with isMousedown := true, detectSwipeCounter := 3 } : TouchesState).detectSwipeCounter + 1) ∧
    (handleMousemoveT { touchesInit with isMousedown := true, detectSwipeCounter := 3 } 30 5).1.eventType = TEv.hswipe := by
  have h := swipe_latch { touchesInit with isMousedown := true, detectSwipeCounter := 3 }
    30 5 rfl rfl
  refine ⟨h.1, ?_⟩
  exact ((h.2.1 (by norm_num [touchesInit])).2).mpr (by norm_num [touchesInit])

theorem handlePinch_formula (p : PZParams) (g : Geometry) (st : PinchState) (e : PinchEvt)
    (hLP : p.limitPan = false) (hev : st.eventType = EvT.pinch)
    (hlo : p.minScale < st.initialScale * (getDistance e / st.initialDistance))
    (hhi : st.initialScale * (getDistance e / st.initialDistance) ≤ st.maxScale) :
    (handlePinch p g st e).scale = st.initialScale * (getDistance e / st.initialDistance) ∧
    (handlePinch p g st e).moveX =
      st.initialMoveX - (getDistance e / st.initialDistance * st.moveXC - st.moveXC) ∧
    (handlePinch p g st e).moveY =
      st.initialMoveY - (getDistance e / st.initialDistance * st.moveYC - st.moveYC) := by
  have hno : ¬(st.initialScale * (getDistance e / st.initialDistance) > st.maxScale ∨
      st.initialScale * (getDistance e / st.initialDistance) ≤ p.minScale) := by
    push_neg
    exact ⟨hhi, hlo⟩
  simp only [handlePinch, handleLimitZoom, hev, hLP]
  simp [hno]

theorem handlePinch_entry100 (p : PZParams) (g : Geometry) (st0 : PinchState) (e1 : PinchEvt)
    (fx fy : ℚ)
    (hLP : p.limitPan = false)
    (h0ev : st0.eventType = EvT.undef) (h0s : st0.initialScale = 1)
    (h0x : st0.initialMoveX = 0) (h0y : st0.initialMoveY = 0)
    (h0m : st0.maxScale = 3) (hpm : p.minScale = 0)
    (hd1 : getDistance e1 = 100)
    (hfx : (e1.t0.clientX - st0.elemLeft + (e1.t1.clientX - st0.elemLeft)) / 2 = fx)
    (hfy : (e1.t0.clientY - st0.elemTop + (e1.t1.clientY - st0.elemTop)) / 2 = fy) :
    handlePinch p g st0 e1 =
      { st0 with eventType := EvT.pinch, distance := 100, initialDistance := 100,
                 moveXC := fx, moveYC := fy, scale := 1, moveX := 0, moveY := 0 } := by
  simp only [handlePinch, handleLimitZoom, h0ev, hLP]
  norm_num [hd1, hfx, hfy, h0s, h0x, h0y, h0m, hpm]

theorem handlePinch_move200 (p : PZParams) (g : Geometry) (st0 : PinchState) (e2 : PinchEvt)
    (fx fy : ℚ)
    (hLP : p.limitPan = false)
    (h0s : st0.initialScale = 1)
    (h0x : st0.initialMoveX = 0) (h0y : st0.initialMoveY = 0)
    (h0m : st0.maxScale = 3) (hpm : p.minScale = 0)
    (hd2 : getDistance e2 = 200) :
    handlePinch p g
      { st0 with eventType := EvT.pinch, distance := 100, initialDistance := 100,
                 moveXC := fx, moveYC := fy, scale := 1, moveX := 0, moveY := 0 } e2 =
      { st0 with eventType := EvT.pinch, distance := 200, initialDistance := 100,
                 moveXC := fx, moveYC := fy, scale := 2, moveX := -fx, moveY := -fy } := by
  simp only [handlePinch, handleLimitZoom, hLP]
  simp [hd2, h0s, h0x, h0y, h0m, hpm,
    show (200:ℚ)/100 = 2 from by norm_num,
    show ¬((3:ℚ) < 2) from by norm_num,
    show ¬((2:ℚ) ≤ 0) from by norm_num,
    show ∀ a : ℚ, 2 * a - a = a from fun a => by ring]

theorem handlePinch_move400 (p : PZParams) (g : Geometry) (st0 : PinchState) (e3 : PinchEvt)
    (fx fy : ℚ)
    (hLP : p.limitPan = false)
    (h0s : st0.initialScale = 1)
    (h0x : st0.initialMoveX = 0) (h0y : st0.initialMoveY = 0)
    (h0m : st0.maxScale = 3) (hpm : p.minScale = 0)
    (hd3 : getDistance e3 = 400)
    (hfx0 : 0 ≤ fx) (hfy0 : 0 ≤ fy)
    (hW : 0 < g.imageWidth) (hH : 0 < g.imageHeight) :
    (handlePinch p g
      { st0 with eventType := EvT.pinch, distance := 200, initialDistance := 100,
                 moveXC := fx, moveYC := fy, scale := 2, moveX := -fx, moveY := -fy }
      e3).scale = 3 ∧
    (handlePinch p g
      { st0 with eventType := EvT.pinch, distance := 200, initialDistance := 100,
                 moveXC := fx, moveYC := fy, scale := 2, moveX := -fx, moveY := -fy }
      e3).moveX = -(2 * fx) ∧
    (handlePinch p g
      { st0 with eventType := EvT.pinch, distance := 200, initialDistance := 100,
                 moveXC := fx, moveYC := fy, scale := 2, moveX := -fx, moveY := -fy }
      e3).moveY = -(2 * fy) := by
  have hWA : g.imageWidth * 4 - g.imageWidth ≠ 0 :=
    ne_of_gt (by linarith : (0:ℚ) < g.imageWidth * 4 - g.imageWidth)
  have hHA : g.imageHeight * 4 - g.imageHeight ≠ 0 :=
    ne_of_gt (by linarith : (0:ℚ) < g.imageHeight * 4 - g.imageHeight)
  simp only [handlePinch, handleLimitZoom, hLP]
  simp [hd3, h0s, h0x, h0y, h0m, hpm,
    show (400:ℚ)/100 = 4 from by norm_num,
    show (3:ℚ) < 4 from by norm_num,
    show ¬((3:ℚ) ≤ 0) from by norm_num,
    show ∀ a : ℚ, 4 * a - a = 3 * a from fun a => by ring]
  constructor
  · rw [show -(3 * fx) / (g.imageWidth * 4 - g.imageWidth) *
        (g.imageWidth * 3 - g.imageWidth) = -(2 * fx) from by field_simp; ring,
      abs_neg, abs_of_nonneg (by linarith : (0:ℚ) ≤ 2 * fx)]
  · rw [show -(3 * fy) / (g.imageHeight * 4 - g.imageHeight) *
        (g.imageHeight * 3 - g.imageHeight) = -(2 * fy) from by field_simp; ring,
      abs_neg, abs_of_nonneg (by linarith : (0:ℚ) ≤ 2 * fy)]

/-- C2: with pan limiting off, every pinch move whose resulting scale lies
strictly above minScale and at most maxScale sets the live scale to
committedScale times (distance over initialDistance) and the live
translation to committedTranslate minus (ratio times focus minus focus);
and in the concrete scenario with maxScale 3, committed scale 1 and a focus
point with nonnegative coordinates, the pinch entered at distance 100 then
moved to distance 200 reaches scale 2 with translation minus focus, and the
further move to distance 400 reaches the clamped scale 3 with translation
minus twice the focus, exactly the value that preserves the focus point at
scale 3 — no discontinuous jump. -/
theorem pinch_move_scale_focus (p : PZParams) (g : Geometry) (st : PinchState) (e : PinchEvt)
    (st0 : PinchState) (e1 e2 e3 : PinchEvt) (fx fy : ℚ)
    (hLP : p.limitPan = false) (hev : st.eventType = EvT.pinch)
    (hlo : p.minScale < st.initialScale * (getDistance e / st.initialDistance))
    (hhi : st.initialScale * (getDistance e / st.initialDistance) ≤ st.maxScale)
    (h0ev : st0.eventType = EvT.undef) (h0s : st0.initialScale = 1)
    (h0x : st0.initialMoveX = 0) (h0y : st0.initialMoveY = 0)
    (h0m : st0.maxScale = 3) (hpm : p.minScale = 0)
    (hd1 : getDistance e1 = 100) (hd2 : getDistance e2 = 200) (hd3 : getDistance e3 = 400)
    (hfx : (e1.t0.clientX - st0.elemLeft + (e1.t1.clientX - st0.elemLeft)) / 2 = fx)
    (hfy : (e1.t0.clientY - st0.elemTop + (e1.t1.clientY - st0.elemTop)) / 2 = fy)
    (hfx0 : 0 ≤ fx) (hfy0 : 0 ≤ fy)
    (hW : 0 < g.imageWidth) (hH : 0 < g.imageHeight) :
    ((handlePinch p g st e).scale = st.initialScale * (getDistance e / st.initialDistance) ∧
     (handlePinch p g st e).moveX =
       st.initialMoveX - (getDistance e / st.initialDistance * st.moveXC - st.moveXC) ∧
     (handlePinch p g st e).moveY =
       st.initialMoveY - (getDistance e / st.initialDistance * st.moveYC - st.moveYC)) ∧
    ((handlePinch p g st0 e1).scale = 1 ∧
     (handlePinch p g (handlePinch p g st0 e1) e2).scale = 2 ∧
     (handlePinch p g (handlePinch p g st0 e1) e2).moveX = -fx ∧
     (handlePinch p g (handlePinch p g st0 e1) e2).moveY = -fy ∧
     (handlePinch p g (handlePinch p g (handlePinch p g st0 e1) e2) e3).scale = 3 ∧
     (handlePinch p g (handlePinch p g (handlePinch p g st0 e1) e2) e3).moveX = -(2 * fx) ∧
     (handlePinch p g (handlePinch p g (handlePinch p g st0 e1) e2) e3).moveY
        = -(2 * fy)) := by
  refine ⟨handlePinch_formula p g st e hLP hev hlo hhi, ?_⟩
  have h1 := handlePinch_entry100 p g st0 e1 fx fy hLP h0ev h0s h0x h0y h0m hpm hd1 hfx hfy
  have h2 := handlePinch_move200 p g st0 e2 fx fy hLP h0s h0x h0y h0m hpm hd2
  have h3 := handlePinch_move400 p g st0 e3 fx fy hLP h0s h0x h0y h0m hpm hd3
    hfx0 hfy0 hW hH
  rw [h1, h2]
  exact ⟨rfl, rfl, rfl, rfl, h3.1, h3.2.1, h3.2.2⟩

/-- C2 witness: the general formula applied at a committed scale of 2 and
the concrete scenario run over axis-aligned contacts 100, 200 and 400
pixels apart with focus point (50, 0). -/
theorem pinch_move_scale_focus_witness :
    ((handlePinch defP defG c2stA eA1).scale =
       c2stA.initialScale * (getDistance eA1 / c2stA.initialDistance) ∧
     (handlePinch defP defG c2stA eA1).moveX =
       c2stA.initialMoveX -
         (getDistance eA1 / c2stA.initialDistance * c2stA.moveXC - c2stA.moveXC) ∧
     (handlePinch defP defG c2stA eA1).moveY =
       c2stA.initialMoveY -
         (getDistance eA1 / c2stA.initialDistance * c2stA.moveYC - c2stA.moveYC)) ∧
    ((handlePinch defP defG stInit eA1).scale = 1 ∧
     (handlePinch defP defG (handlePinch defP defG stInit eA1) eA2).scale = 2 ∧
     (handlePinch defP defG (handlePinch defP defG stInit eA1) eA2).moveX = -50 ∧
     (handlePinch defP defG (handlePinch defP defG stInit eA1) eA2).moveY = -0 ∧
     (handlePinch defP defG
        (handlePinch defP defG (handlePinch defP defG stInit eA1) eA2) eA3).scale = 3 ∧
     (handlePinch defP defG
        (handlePinch defP defG (handlePinch defP defG stInit eA1) eA2) eA3).moveX =
       -(2 * 50) ∧
     (handlePinch defP defG
        (handlePinch defP defG (handlePinch defP defG stInit eA1) eA2) eA3).moveY =
       -(2 * 0)) :=
  pinch_move_scale_focus defP defG c2stA eA1 stInit eA1 eA2 eA3 50 0
    (by norm_num [defP])
    (by norm_num [c2stA, stInit])
    (by norm_num [defP, c2stA, stInit, getDistance, eA1, mathSqrt_10000])
    (by norm_num [c2stA, stInit, getDistance, eA1, mathSqrt_10000])
    (by norm_num [stInit]) (by norm_num [stInit]) (by norm_num [stInit])
    (by norm_num [stInit]) (by norm_num [stInit]) (by norm_num [defP])
    (by norm_num [getDistance, eA1, mathSqrt_10000])
    (by norm_num [getDistance, eA2, mathSqrt_40000])
    (by norm_num [getDistance, eA3, mathSqrt_160000])
    (by norm_num [eA1, stInit]) (by norm_num [eA1, stInit])
    (by norm_num) (by norm_num) (by norm_num [defG]) (by norm_num [defG])

end PinchZoom
